import Mathlib

/-!
Verification of the ioc-agentic-system core against its specification.

The file shallowly embeds the parts of the source that the checked claims
concern: the ReAct agent state and loop (backend/orchestrator/react_agent_v2.py,
react_state.py), the quality validator and retry executor
(backend/orchestrator/enhanced_components.py), the HTTP executor
(backend/executor/service.py), the registry service and CDC sync pipeline
(backend/registry/service.py, sync_service.py, sync_models.py), and the vector
store projection (backend/registry/embeddings/milvus_store.py, rag_retriever.py).

Conventions: Python floats are modelled as rationals; dictionaries as
association lists; raised exceptions as `Except`; wall-clock sleeps are not
modelled (only the computed delay values are). Definitions follow the source;
definitions whose name starts with `spec` follow the specification's words
instead and exist to be compared against the source embedding.
-/

namespace Ioc

/-! ## Agent state (backend/orchestrator/react_state.py) -/

/-- Mirror of dataclass `AgentThought` (timestamp omitted: wall-clock). -/
structure AgentThoughtM where
  step : Nat
  content : String
deriving Repr, DecidableEq

/-- Mirror of dataclass `AgentAction` (parameters carried abstractly by the
loop model; the synthesized parameter dictionaries are modelled separately). -/
structure AgentActionM where
  step : Nat
  functionId : String
  functionName : String
deriving Repr, DecidableEq

/-- Mirror of dataclass `AgentObservation` (the `result` payload is abstracted
to a string; only `success` is consulted by the validator and the loop). -/
structure AgentObservationM where
  step : Nat
  success : Bool
  result : Option String
  error : Option String
deriving Repr, DecidableEq

/-- Mirror of dataclass `AgentReflection`. -/
structure AgentReflectionM where
  step : Nat
  content : String
  qualityScore : ℚ
  shouldContinue : Bool
  needsClarification : Bool
deriving Repr, DecidableEq

/-- An entry of `state["retrieved_functions"]` (a function-metadata dict);
only identity fields are carried at the loop level. -/
structure FuncMetaM where
  functionId : String
  name : String
deriving Repr, DecidableEq

/-- Mirror of the `ReactAgentState` TypedDict, restricted to the keys the
verified claims consult.  Keys that `create_initial_state` does not set are
`Option`-valued (`none` = key absent). -/
structure RunState where
  userId : String
  conversationId : Option String
  query : String
  thoughts : List AgentThoughtM
  actions : List AgentActionM
  observations : List AgentObservationM
  reflections : List AgentReflectionM
  currentStep : Nat
  maxSteps : Nat
  retrievedFunctions : List FuncMetaM
  selectionMethod : Option String
  selectionConfidence : Option ℚ
  finalAnswer : Option String
  finalResponse : Option String
  qualityScore : Option ℚ
  apiCallsMade : Nat
  status : String
deriving Repr, DecidableEq

/-- Mirror of `create_initial_state` in react_state.py. -/
def createInitialState (userId query : String) (conversationId : Option String)
    (maxSteps : Nat) : RunState :=
  { userId := userId
    conversationId := conversationId
    query := query
    thoughts := []
    actions := []
    observations := []
    reflections := []
    currentStep := 0
    maxSteps := maxSteps
    retrievedFunctions := []
    selectionMethod := none
    selectionConfidence := none
    finalAnswer := none
    finalResponse := none
    qualityScore := none
    apiCallsMade := 0
    status := "thinking" }

/-! ## Quality validator (backend/orchestrator/enhanced_components.py,
class `QualityValidator`) -/

/-- A step of an `ExecutionPlan` (class `ExecutionStep`); only its presence
(the step count) is consulted by the validator. -/
structure ExecStepM where
  id : String
  functionId : String
  functionName : String
deriving Repr, DecidableEq

/-- Mirror of class `ExecutionPlan` (metadata omitted). A Python
`ExecutionPlan` object is truthy even with an empty `steps` list, so
`validate_completion`'s `if not plan` distinguishes only `None`. -/
structure ExecPlanM where
  steps : List ExecStepM
deriving Repr, DecidableEq

/-- Mirror of dataclass `QualityScore` (the free-form `details` dict omitted). -/
structure QualityScoreM where
  overall : ℚ
  completeness : ℚ
  coverage : ℚ
  reliability : ℚ
  formatValid : ℚ
deriving Repr, DecidableEq

/-- Number of observations with `obs.success` truthy. -/
def successCount (obs : List AgentObservationM) : Nat :=
  (obs.filter (fun o => o.success)).length

/-- Python `sub in s` for a non-empty needle `sub`. -/
def containsSub (s sub : String) : Bool :=
  (s.splitOn sub).length > 1

/-- Mirror of `QualityValidator._check_completeness`.  Without a plan the
heuristic divides the TOTAL observation count by 2; with a plan it divides the
successful-observation count by the step count (0 when the plan has no steps). -/
def checkCompleteness (state : RunState) (plan : Option ExecPlanM) : ℚ :=
  match plan with
  | none => min ((state.observations.length : ℚ) / 2) 1
  | some p =>
    if p.steps.isEmpty then 0
    else min ((successCount state.observations : ℚ) / (p.steps.length : ℚ)) 1

/-- Mirror of `QualityValidator._check_function_coverage`. -/
def checkFunctionCoverage (state : RunState) (plan : Option ExecPlanM) : ℚ :=
  match plan with
  | none => if state.actions.isEmpty then 0 else 1
  | some p =>
    if p.steps.length = 0 then 0
    else min ((state.actions.length : ℚ) / (p.steps.length : ℚ)) 1

/-- Mirror of `QualityValidator._check_reliability`. -/
def checkReliability (state : RunState) : ℚ :=
  if state.observations.isEmpty then 0
  else (successCount state.observations : ℚ) / (state.observations.length : ℚ)

/-- Mirror of `QualityValidator._check_output_format`. -/
def checkOutputFormat (state : RunState) : ℚ :=
  match state.finalAnswer with
  | none => 0
  | some a =>
    if a = "" then 0
    else
      let s1 : ℚ := if a.length > 20 then 2/5 else 0
      let s2 : ℚ := if ¬ containsSub a.toLower "error" ∨ a.length > 100 then 3/10 else 0
      let s3 : ℚ :=
        if containsSub a "\n" ∨ containsSub a "1." ∨ containsSub a "2."
            ∨ containsSub a "-" ∨ containsSub a "*" then 3/10 else 0
      min (s1 + s2 + s3) 1

/-- Mirror of `QualityValidator.validate_completion` with its weights
`completeness 0.3, coverage 0.3, reliability 0.25, format_valid 0.15`. -/
def validateCompletion (query : String) (state : RunState)
    (plan : Option ExecPlanM) : QualityScoreM :=
  let completeness := checkCompleteness state plan
  let coverage := checkFunctionCoverage state plan
  let reliability := checkReliability state
  let formatValid := checkOutputFormat state
  { overall := completeness * (3/10) + coverage * (3/10)
      + reliability * (1/4) + formatValid * (3/20)
    completeness := completeness
    coverage := coverage
    reliability := reliability
    formatValid := formatValid }

/-- The completeness score as the specification words it (§4.7):
`min(successful_observations / expected, 1.0)` with `expected = plan.steps`
when a plan is supplied and the heuristic constant 2 otherwise.  Kept separate
from the source embedding `checkCompleteness` to compare the two. -/
def specCompleteness (state : RunState) (plan : Option ExecPlanM) : ℚ :=
  let expected : ℚ := match plan with
    | some p => (p.steps.length : ℚ)
    | none => 2
  min ((successCount state.observations : ℚ) / expected) 1

/-! ## Reflection override (react_agent_v2.py, `ReactAgentV2._enhanced_reflect`) -/

/-- The tail of `_enhanced_reflect`: overwrite the LLM-parsed quality with the
objective score, then force `should_continue` to `False` when the objective
quality reaches the threshold or the step budget is exhausted; otherwise the
LLM-parsed flag is kept. -/
def enhancedReflectOverride (r : AgentReflectionM) (objQuality threshold : ℚ)
    (currentStep maxSteps : Nat) : AgentReflectionM :=
  let r1 := { r with qualityScore := objQuality }
  if threshold ≤ objQuality then { r1 with shouldContinue := false }
  else if maxSteps ≤ currentStep then { r1 with shouldContinue := false }
  else r1

/-- `_enhanced_reflect` after `_parse_reflection`: the objective quality is
`validate_completion(query, state)` (no plan argument in the source call). -/
def enhancedReflect (r : AgentReflectionM) (state : RunState)
    (threshold : ℚ) : AgentReflectionM :=
  enhancedReflectOverride r (validateCompletion state.query state none).overall
    threshold state.currentStep state.maxSteps

/-! ## The ReAct loop of `ReactAgentV2.run` (react_agent_v2.py)

One loop iteration is driven by three external outcomes: the THINK thought,
whether an ACT happened (in the source, the action is appended exactly when
`_should_act` fires AND `_enhanced_act` returns an action, and its observation
is appended immediately after through `_enhanced_observe`, which returns
normally on every execution outcome), and the REFLECT result.  Stream
callbacks are modelled as non-raising (they only externalize events). -/

/-- The external outcomes consumed by one iteration of the while-loop. -/
structure IterOut where
  thought : AgentThoughtM
  actObs : Option (AgentActionM × AgentObservationM × Nat)
  reflection : AgentReflectionM

/-- One iteration body of the loop in `ReactAgentV2.run`: increment
`current_step`, append the thought, append the action and its observation
together when an action was produced (adding the reported attempts to
`api_calls_made`), then append the reflection. -/
def stepIter (s : RunState) (ev : IterOut) : RunState :=
  let s1 := { s with currentStep := s.currentStep + 1 }
  let s2 := { s1 with thoughts := s1.thoughts ++ [ev.thought] }
  let s3 := match ev.actObs with
    | none => s2
    | some (a, o, attempts) =>
      { s2 with
        actions := s2.actions ++ [a]
        observations := s2.observations ++ [o]
        apiCallsMade := s2.apiCallsMade + attempts }
  { s3 with reflections := s3.reflections ++ [ev.reflection] }

/-- The while-loop of `ReactAgentV2.run`: run while `current_step < max_steps`,
breaking when a reflection clears `should_continue`.  The event list supplies
the per-iteration outcomes; every prefix of a run is reached by some list. -/
def runLoop (s : RunState) : List IterOut → RunState
  | [] => s
  | ev :: rest =>
    if s.currentStep < s.maxSteps then
      let s1 := stepIter s ev
      if ev.reflection.shouldContinue then runLoop s1 rest else s1
    else s

/-- Phases 3-4 of `ReactAgentV2.run`: store the final answer, compute the final
quality (source call: `validate_completion(query, state)`, no plan), and set the
terminal status by comparison with the threshold. -/
def finalizeRun (s : RunState) (answer : String) (threshold : ℚ) : RunState :=
  let s1 := { s with finalAnswer := some answer, finalResponse := some answer }
  let q := validateCompletion s1.query s1 none
  { s1 with
    qualityScore := some q.overall
    status := if threshold ≤ q.overall then "completed" else "incomplete" }

/-! ## Empty-retrieval early exit (react_agent_v2.py,
`ReactAgentV2._handle_no_functions`) -/

/-- The fixed message `_handle_no_functions` stores as the final answer. -/
def noFunctionsMessage : String :=
  "Tôi không tìm thấy chức năng phù hợp để trả lời câu hỏi này. " ++
  "Vui lòng thử diễn đạt lại câu hỏi hoặc liên hệ hỗ trợ."

/-- Mirror of `_handle_no_functions` (the wall-clock
`total_execution_time_ms` stamp is not modelled). -/
def handleNoFunctions (s : RunState) : RunState :=
  { s with
    status := "completed"
    finalAnswer := some noFunctionsMessage
    finalResponse := some noFunctionsMessage
    qualityScore := some 0 }

/-- The path of `ReactAgentV2.run` taken when the hybrid selector returns no
functions: the initial state receives the (empty) selection — the selector's
final fallback is `([], RAG_SEMANTIC, 0.0)` — and `_handle_no_functions` is
returned before the loop.  The LLM collaborator `llm` is threaded to witness
that this path never consults it. -/
def runEmptySelection (llm : String → String) (userId query : String)
    (conversationId : Option String) (maxIterations : Nat) : RunState :=
  let s0 := createInitialState userId query conversationId maxIterations
  let s1 := { s0 with
    retrievedFunctions := []
    selectionMethod := some "rag_semantic"
    selectionConfidence := some 0 }
  handleNoFunctions s1

/-! ## Parameter synthesis (react_agent_v2.py, class `ParameterSynthesizerV2`) -/

/-- JSON-like parameter values (Python `str`, `int`, `float`, `bool`, `list`,
`dict`, `None`). -/
inductive JValue where
  | str (s : String)
  | int (n : Int)
  | num (q : ℚ)
  | bool (b : Bool)
  | arr (xs : List JValue)
  | obj (fields : List (String × JValue))
  | null

/-- A synthesized parameter dictionary. -/
abbrev ParamsT := List (String × JValue)

/-- A per-property schema entry of the JSON-Schema-shaped `parameters` mapping.
A `pattern` constraint is carried as its compiled match predicate. -/
structure PropSchema where
  type? : Option String
  minimum? : Option ℚ
  maximum? : Option ℚ
  pattern? : Option (String → Bool)

/-- The `parameters` member of a function schema. -/
structure ParamSchema where
  properties : List (String × PropSchema)
  required : List String

/-- The slice of a registry function dict consulted by the synthesizer. -/
structure FunctionSchemaM where
  functionId : String
  name : String
  parameters : ParamSchema

/-- Mirror of `SynthesisStrategy`. -/
inductive SynthStrategy where
  | template
  | extraction
  | contextReuse
  | llmGeneration
deriving Repr, DecidableEq

/-- Mirror of `ParameterSynthesizerV2._validate_parameters`: the loop returns
`(False, "Missing required parameter: p")` at the first required property
missing from the params dict, else `(True, None)`.  No other check is made. -/
def validateParameters (params : ParamsT) (schema : FunctionSchemaM) :
    Bool × Option String :=
  match schema.parameters.required.find? (fun p => (params.lookup p).isNone) with
  | some p => (false, some ("Missing required parameter: " ++ p))
  | none => (true, none)

/-- Mirror of the strategy loop of `ParameterSynthesizerV2.synthesize`: each
strategy attempt either raised/failed (`none`) or produced a params dict; the
first attempt whose dict is non-empty (`if success and params:`) and passes
`_validate_parameters` wins. -/
def synthesize (attempts : List (SynthStrategy × Option ParamsT))
    (schema : FunctionSchemaM) : Option (ParamsT × SynthStrategy) :=
  match attempts with
  | [] => none
  | (strat, res) :: rest =>
    match res with
    | some params =>
      if !params.isEmpty && (validateParameters params schema).1 then
        some (params, strat)
      else synthesize rest schema
    | none => synthesize rest schema

/-- Python numeric view of a value (for `minimum`/`maximum`). -/
def jNum? : JValue → Option ℚ
  | .int n => some (n : ℚ)
  | .num q => some q
  | _ => none

/-- Python `str(value)` restricted to the scalar cases a `pattern` constraint
is used with. -/
def jStr : JValue → String
  | .str s => s
  | .int n => toString n
  | .num q => toString q
  | .bool b => if b then "True" else "False"
  | .null => "None"
  | .arr _ => ""
  | .obj _ => ""

/-- The spec's type table (§4.5): `string↔text`, `number↔int|float`,
`integer↔int`, `boolean↔bool`, `array↔sequence`, `object↔mapping`; an unknown
type is accepted. -/
def specTypeOk (v : JValue) (t : String) : Bool :=
  if t = "string" then match v with | .str _ => true | _ => false
  else if t = "number" then match v with | .int _ => true | .num _ => true | _ => false
  else if t = "integer" then match v with | .int _ => true | _ => false
  else if t = "boolean" then match v with | .bool _ => true | _ => false
  else if t = "array" then match v with | .arr _ => true | _ => false
  else if t = "object" then match v with | .obj _ => true | _ => false
  else true

/-- Local validation as the specification words it (§4.5): all `required`
properties present; each supplied value matches its declared `type`;
`minimum`/`maximum` honored; `pattern` matches when present; no unknown
properties.  Kept separate from the source embedding `validateParameters` to
compare the two. -/
def specLocalValidation (params : ParamsT) (schema : FunctionSchemaM) : Bool :=
  schema.parameters.required.all (fun p => (params.lookup p).isSome)
  && params.all (fun kv =>
    match schema.parameters.properties.lookup kv.1 with
    | none => false
    | some ps =>
      (match ps.type? with | none => true | some t => specTypeOk kv.2 t)
      && (match ps.minimum?, jNum? kv.2 with
          | some lo, some q => decide (lo ≤ q)
          | some _, none => false
          | none, _ => true)
      && (match ps.maximum?, jNum? kv.2 with
          | some hi, some q => decide (q ≤ hi)
          | some _, none => false
          | none, _ => true)
      && (match ps.pattern? with | none => true | some pred => pred (jStr kv.2)))

/-! ## Registry mutations and CDC event logging
(backend/registry/service.py, backend/registry/sync_service.py) -/

/-- Mirror of enum `OperationType` (sync_models.py). -/
inductive OperationTypeM where
  | insert
  | update
  | delete
deriving Repr, DecidableEq

/-- A row write that `FunctionRegistryService` performs through the shared
session. -/
inductive RegWrite where
  | insertFunctionRow (functionId : String)
  | updateFunctionRow (functionId : String)
  | deleteFunctionRow (functionId : String)
  | insertSyncEventRow (entityId : String) (operation : OperationTypeM)
deriving Repr, DecidableEq

/-- One committed database transaction: the writes between two `commit()`
calls. -/
structure Txn where
  writes : List RegWrite
deriving Repr, DecidableEq

/-- Mirror of `SyncService.log_event` as seen at transaction granularity: it
adds the event row and commits it on its own.  `logOk = false` models the call
raising (in which case no event transaction commits). -/
def logEventTxns (entityId : String) (operation : OperationTypeM)
    (logOk : Bool) : List Txn :=
  if logOk then [⟨[.insertSyncEventRow entityId operation]⟩] else []

/-- Mirror of `FunctionRegistryService.create_function` for a fresh
`function_id`, at transaction granularity: the entity insert commits first;
the sync-event logging runs afterwards inside `try/except` — its failure is
logged and swallowed.  The returned flag is whether the call reports success. -/
def createFunctionTxns (functionId : String) (logOk : Bool) :
    List Txn × Bool :=
  ([⟨[.insertFunctionRow functionId]⟩] ++ logEventTxns functionId .insert logOk,
   true)

/-- Mirror of `FunctionRegistryService.update_function` for an existing row. -/
def updateFunctionTxns (functionId : String) (logOk : Bool) :
    List Txn × Bool :=
  ([⟨[.updateFunctionRow functionId]⟩] ++ logEventTxns functionId .update logOk,
   true)

/-- Mirror of `FunctionRegistryService.delete_function` for an existing row. -/
def deleteFunctionTxns (functionId : String) (logOk : Bool) :
    List Txn × Bool :=
  ([⟨[.deleteFunctionRow functionId]⟩] ++ logEventTxns functionId .delete logOk,
   true)

/-- Whether a write is the entity mutation of the given operation on the given
id. -/
def isEntityWrite (functionId : String) (operation : OperationTypeM)
    (w : RegWrite) : Bool :=
  match operation, w with
  | .insert, .insertFunctionRow f => f == functionId
  | .update, .updateFunctionRow f => f == functionId
  | .delete, .deleteFunctionRow f => f == functionId
  | _, _ => false

/-- The specification's contract (§4.1) that the SyncEvent is written in the
same transaction as the entity change, stated of a transaction trace. -/
def specSameTxnEvent (txns : List Txn) (functionId : String)
    (operation : OperationTypeM) : Prop :=
  ∃ t ∈ txns, (∃ w ∈ t.writes, isEntityWrite functionId operation w = true)
    ∧ .insertSyncEventRow functionId operation ∈ t.writes

/-! ## Sync event lifecycle (backend/registry/sync_service.py, sync_models.py) -/

/-- Mirror of enum `SyncStatus`. -/
inductive SyncStatusM where
  | pending
  | processing
  | synced
  | failed
deriving Repr, DecidableEq

/-- The snapshot payload a sync event carries after
`SyncService._convert_to_rag_format` (the fields the vector projection
stores). -/
structure VPayload where
  funcId : String
  name : String
  description : String
  category : String
deriving Repr, DecidableEq

/-- Mirror of the `SyncEvent` row (sync_models.py). Timestamps are abstract
ticks. -/
structure SyncEventM where
  eventId : Nat
  entityType : String
  entityId : String
  operation : OperationTypeM
  oldData : Option VPayload
  newData : Option VPayload
  syncStatus : SyncStatusM
  errorMessage : Option String
  retryCount : Nat
  maxRetries : Nat
  createdAt : Nat
  processedAt : Option Nat
  syncedAt : Option Nat
deriving Repr, DecidableEq

/-- Mirror of `SyncService.process_event`: mark `processing` and stamp
`processed_at`; dispatch (outcome supplied as `dispatch` — `.error msg` models
the handler raising with message `msg`); on success set `synced`, stamp
`synced_at`, clear `error_message`; on error set `failed`, store the message
truncated to 1000 characters, and increment `retry_count`.  Returns the event
row as committed plus the boolean the method returns. -/
def processEvent (e : SyncEventM) (dispatch : Except String Unit)
    (tProcessed tSynced : Nat) : SyncEventM × Bool :=
  let e1 := { e with syncStatus := .processing, processedAt := some tProcessed }
  match dispatch with
  | .ok _ =>
    ({ e1 with
        syncStatus := .synced
        syncedAt := some tSynced
        errorMessage := none }, true)
  | .error msg =>
    ({ e1 with
        syncStatus := .failed
        errorMessage := some (msg.take 1000)
        retryCount := e1.retryCount + 1 }, false)

/-- The claim filter of `SyncService.get_pending_events`: `pending`, or
`failed` with retries left. -/
def claimable (e : SyncEventM) : Bool :=
  e.syncStatus == .pending
  || (e.syncStatus == .failed && e.retryCount < e.maxRetries)

/-- Ordering key of `get_pending_events` (`order_by(SyncEvent.created_at)`). -/
def createdLe (a b : SyncEventM) : Prop := a.createdAt ≤ b.createdAt

instance : DecidableRel createdLe := fun a b => Nat.decLe a.createdAt b.createdAt

instance : IsTotal SyncEventM createdLe := ⟨fun a b => Nat.le_total a.createdAt b.createdAt⟩

instance : IsTrans SyncEventM createdLe := ⟨fun _ _ _ => Nat.le_trans⟩

/-- Mirror of `SyncService.get_pending_events` (no entity-type filter): select
the claimable events, ordered by `created_at` ascending, limited to `limit`. -/
def getPendingEvents (events : List SyncEventM) (limit : Nat) : List SyncEventM :=
  (((events.filter claimable).insertionSort createdLe).take limit)

/-! ## Vector index projection
(backend/registry/embeddings/milvus_store.py, rag_retriever.py) -/

/-- A row of the Milvus collection: the primary key is an auto-generated id;
`function_id` is an ordinary VARCHAR field (the embedding vector is determined
by the payload and not modelled separately). -/
structure VRow where
  rowId : Nat
  functionId : String
  name : String
  description : String
  category : String
deriving Repr, DecidableEq

/-- The collection state: its rows and the next auto id. -/
structure VStore where
  rows : List VRow
  nextAutoId : Nat
deriving Repr, DecidableEq

/-- The empty collection. -/
def vEmpty : VStore := ⟨[], 0⟩

/-- Mirror of `MilvusStore.insert` (via `RAGRetriever.index_function`): a plain
append with a fresh auto id — not an upsert. -/
def indexFunction (st : VStore) (p : VPayload) : VStore :=
  { rows := st.rows ++ [⟨st.nextAutoId, p.funcId, p.name, p.description, p.category⟩]
    nextAutoId := st.nextAutoId + 1 }

/-- Mirror of `MilvusStore.delete_by_function_id` (via
`RAGRetriever.delete_function`): delete every row whose `function_id` matches. -/
def deleteByFunctionId (st : VStore) (functionId : String) : VStore :=
  { st with rows := st.rows.filter (fun r => r.functionId != functionId) }

/-- Mirror of `SyncService._process_insert` acting on the vector store:
non-`function` entities are ignored; a missing snapshot raises. -/
def processInsertVec (e : SyncEventM) (st : VStore) : Except String VStore :=
  if e.entityType ≠ "function" then .ok st
  else match e.newData with
    | none => .error "No data to insert"
    | some d => .ok (indexFunction st d)

/-- Mirror of `SyncService._process_update`: best-effort delete-by-id, then
insert. -/
def processUpdateVec (e : SyncEventM) (st : VStore) : Except String VStore :=
  if e.entityType ≠ "function" then .ok st
  else match e.newData with
    | none => .error "No data to update"
    | some d => .ok (indexFunction (deleteByFunctionId st e.entityId) d)

/-- Mirror of `SyncService._process_delete`: delete-by-id, missing is not an
error. -/
def processDeleteVec (e : SyncEventM) (st : VStore) : Except String VStore :=
  if e.entityType ≠ "function" then .ok st
  else .ok (deleteByFunctionId st e.entityId)

/-- Re-running a store transformation on its own output (replaying a sync
event whose first processing succeeded). -/
def applyTwice (f : VStore → Except String VStore) (st : VStore) :
    Except String VStore :=
  match f st with
  | .ok s1 => f s1
  | .error m => .error m

/-- The observable contents of the collection: the payloads of its rows (auto
ids are invisible to retrieval). -/
def vContents (st : VStore) : List VPayload :=
  st.rows.map (fun r => ⟨r.functionId, r.name, r.description, r.category⟩)

/-- How many vector entries the collection holds for a `function_id`. -/
def countFunctionId (st : VStore) (functionId : String) : Nat :=
  (st.rows.filter (fun r => r.functionId == functionId)).length

/-! ## HTTP executor (backend/executor/service.py, class `APIExecutor`) -/

/-- The outcome of one physical HTTP attempt: the request times out, fails at
transport level, or yields a response with a status code and body. -/
inductive HttpAttempt where
  | timeout
  | networkError
  | response (status : Nat) (body : String)
deriving Repr, DecidableEq

/-- The exception that terminates `_execute_http_request`, by class
(`httpx.TimeoutException`, `httpx.NetworkError`, `httpx.HTTPStatusError`, or
tenacity's `RetryError` when the three attempts are exhausted). -/
inductive ReqError where
  | timeoutExc
  | networkExc
  | httpStatusExc (status : Nat)
  | retryExhausted (last : ReqError)
deriving Repr, DecidableEq

/-- One attempt of `_execute_http_request`: `raise_for_status()` raises
`HTTPStatusError` for every status ≥ 400; otherwise the response is returned. -/
def attemptOnce (a : HttpAttempt) : Except ReqError (Nat × String) :=
  match a with
  | .timeout => .error .timeoutExc
  | .networkError => .error .networkExc
  | .response s body => if 400 ≤ s then .error (.httpStatusExc s) else .ok (s, body)

/-- The tenacity retry filter on `_execute_http_request`:
`retry_if_exception_type((httpx.TimeoutException, httpx.NetworkError))`. -/
def tenacityRetryable : ReqError → Bool
  | .timeoutExc => true
  | .networkExc => true
  | _ => false

/-- The `wait_exponential(multiplier=1, min=2, max=10)` delay in seconds before
retry number `n` (the sleep itself is wall-clock and not otherwise modelled). -/
def tenacityWaitSeconds (n : Nat) : ℚ :=
  max (max 0 2) (min ((2 : ℚ) ^ (n - 1)) 10)

/-- The retry loop of `_execute_http_request` under
`stop_after_attempt(3)`: attempt `i` consults `att i`; a non-retryable
exception propagates at once; a retryable one is retried while attempts
remain, and wrapped in `RetryError` when they run out.  Returns the outcome
together with the number of HTTP attempts performed.  `fuel` is the number of
attempts still allowed (3 at entry, so the 0 case is unreachable). -/
def execHttpAux (att : Nat → HttpAttempt) : Nat → Nat → Except ReqError (Nat × String) × Nat
  | _, 0 => (.error (.retryExhausted .timeoutExc), 0)
  | i, fuel + 1 =>
    match attemptOnce (att i) with
    | .ok v => (.ok v, 1)
    | .error e =>
      if tenacityRetryable e then
        if fuel = 0 then (.error (.retryExhausted e), 1)
        else
          let r := execHttpAux att (i + 1) fuel
          (r.1, r.2 + 1)
      else (.error e, 1)

/-- `_execute_http_request` with its decorator `stop_after_attempt(3)`. -/
def execHttp (att : Nat → HttpAttempt) : Except ReqError (Nat × String) × Nat :=
  execHttpAux att 0 3

/-- `type(e).__name__` of the modelled exception classes. -/
def excName : ReqError → String
  | .timeoutExc => "TimeoutException"
  | .networkExc => "NetworkError"
  | .httpStatusExc _ => "HTTPStatusError"
  | .retryExhausted _ => "RetryError"

/-- The result dict of `APIExecutor.execute_function` restricted to the keys
the callers consult (`function_id`, `success`, `data`, `cached`, `error`,
`error_type`, `status_code`; a `none` field models an absent key).  The
response body stands in for the parsed JSON; `str(e)` is modelled by the
exception's class name. -/
structure ExecFnResult where
  functionId : String
  success : Bool
  data : Option String
  cached : Bool
  error : Option String
  errorType : Option String
  statusCode : Option Nat
deriving Repr, DecidableEq

/-- Mirror of `APIExecutor.execute_function` on the path where the registry
lookup succeeded and the cache missed: every exception of the HTTP request is
caught and converted into an error dict (the function RETURNS it; it does not
raise).  Also returns the number of HTTP attempts performed. -/
def executeFunction (functionId : String) (att : Nat → HttpAttempt) :
    ExecFnResult × Nat :=
  match execHttp att with
  | (.ok (s, body), n) =>
    ({ functionId := functionId
       success := true
       data := some body
       cached := false
       error := none
       errorType := none
       statusCode := some s }, n)
  | (.error e, n) =>
    ({ functionId := functionId
       success := false
       data := none
       cached := false
       error := some (excName e)
       errorType := some (excName e)
       statusCode := none }, n)

/-! ## Retry executor (backend/orchestrator/enhanced_components.py,
class `RetryExecutor`) -/

/-- The result dict of `RetryExecutor.execute_with_retry` (a `none` field
models an absent key). -/
structure RetryResult where
  success : Bool
  data : Option ExecFnResult
  attempts : Nat
  error : Option String
  errorType : Option String
  retrySuggested : Option Bool
deriving Repr, DecidableEq

/-- The `retryable` list of `RetryExecutor._should_retry`. -/
def retryableErrors : List String :=
  ["TimeoutError", "ConnectionError", "RateLimitError", "ServiceUnavailableError"]

/-- The `non_retryable` list of `RetryExecutor._should_retry`. -/
def nonRetryableErrors : List String :=
  ["ValidationError", "AuthenticationError", "PermissionError", "ValueError", "KeyError"]

/-- Mirror of `RetryExecutor._should_retry` on the exception's class name:
non-retryable list first, then retryable list, then retry by default. -/
def shouldRetryName (n : String) : Bool :=
  if n ∈ nonRetryableErrors then false
  else if n ∈ retryableErrors then true
  else true

/-- The dict `execute_with_retry` returns after the loop ends without a
successful call; the source reports `attempts = self.max_retries` regardless
of where the loop stopped, and formats the last exception (or `None` when the
loop never ran). -/
def retryFailureResult (maxRetries : Nat) (lastError : Option String) :
    RetryResult :=
  { success := false
    data := none
    attempts := maxRetries
    error := some (lastError.getD "None")
    errorType := some (lastError.getD "NoneType")
    retrySuggested := some (shouldRetryName (lastError.getD "NoneType")) }

/-- The loop of `RetryExecutor.execute_with_retry`: attempt `k` awaits
`call k`; a returned value `r` — whatever `r` contains — yields
`{success: True, data: r, attempts: k+1}`; a raised exception breaks out when
`_should_retry` rejects its class name, else the next attempt runs (after a
modelled-away sleep). -/
def executeWithRetryAux (call : Nat → Except String ExecFnResult)
    (maxRetries : Nat) : Nat → Nat → Option String → RetryResult
  | _, 0, lastError => retryFailureResult maxRetries lastError
  | attempt, fuel + 1, _ =>
    match call attempt with
    | .ok r =>
      { success := true
        data := some r
        attempts := attempt + 1
        error := none
        errorType := none
        retrySuggested := none }
    | .error e =>
      if shouldRetryName e then
        executeWithRetryAux call maxRetries (attempt + 1) fuel (some e)
      else retryFailureResult maxRetries (some e)

/-- Mirror of `RetryExecutor.execute_with_retry` with `max_retries` attempts.
`ReactAgentV2` constructs the executor with `max_retries = 2`. -/
def executeWithRetry (maxRetries : Nat)
    (call : Nat → Except String ExecFnResult) : RetryResult :=
  executeWithRetryAux call maxRetries 0 maxRetries none

/-- The composed observe path of the agent: the retry executor wrapping
`execute_function`, which on the modelled path always returns (never raises). -/
def observeExecute (maxRetries : Nat) (functionId : String)
    (att : Nat → HttpAttempt) : RetryResult :=
  executeWithRetry maxRetries (fun _ => .ok (executeFunction functionId att).1)

/-! ## Concrete instances used by counterexamples and witnesses -/

/-- A run state holding two FAILED observations and nothing else. -/
def c4State : RunState :=
  { createInitialState "u1" "q1" none 5 with
    observations :=
      [{ step := 1, success := false, result := none, error := some "boom" },
       { step := 2, success := false, result := none, error := some "boom" }] }

/-- An LLM reflection whose parsed `Continue` answer is `no`. -/
def c5Reflection : AgentReflectionM :=
  { step := 1, content := "Quality: 0.5\nContinue: no", qualityScore := 1/2
    shouldContinue := false, needsClarification := false }

/-- A mid-run state: step 1 of 5, no observations yet. -/
def c5State : RunState :=
  { createInitialState "u1" "q1" none 5 with currentStep := 1 }

/-- A concrete LLM collaborator. -/
def llmA : String → String := fun q => "LLM:" ++ q

/-- A schema requiring an integer `x` with `minimum` 5. -/
def c1Schema : FunctionSchemaM :=
  { functionId := "f1"
    name := "get_stats"
    parameters :=
      { properties :=
          [("x", { type? := some "integer", minimum? := some 5,
                   maximum? := none, pattern? := none })]
        required := ["x"] } }

/-- Parameters violating `c1Schema`: `x` has the wrong type and `junk` is not
declared. -/
def c1BadParams : ParamsT := [("x", .str "hello"), ("junk", .int 1)]

/-- Parameters satisfying `c1Schema`. -/
def c1GoodParams : ParamsT := [("x", .int 7)]

/-- A concrete function snapshot payload. -/
def c9Payload : VPayload :=
  { funcId := "F1", name := "get_weather"
    description := "Weather lookup", category := "weather" }

/-- A concrete INSERT sync event for entity `F1`. -/
def c9Event : SyncEventM :=
  { eventId := 1, entityType := "function", entityId := "F1"
    operation := .insert, oldData := none, newData := some c9Payload
    syncStatus := .pending, errorMessage := none, retryCount := 0
    maxRetries := 3, createdAt := 0, processedAt := none, syncedAt := none }

/-- An attempt oracle whose first attempt yields HTTP 403. -/
def attForbidden : Nat → HttpAttempt := fun _ => .response 403 "forbidden"

end Ioc

namespace Ioc

/-! # Theorems -/

/-! ## C4 — quality validator formula -/

/-- C4: the claim that `completeness` counts ONLY successful observations in
the no-plan case is false on the code.  With two failed observations and no
plan, `_check_completeness` divides the total observation count by 2 and
returns 1, while the claimed formula `min(successful_observations / 2, 1)`
returns 0. -/
theorem C4_counterexample :
    (validateCompletion "q1" c4State none).completeness = 1
    ∧ specCompleteness c4State none = 0
    ∧ (validateCompletion "q1" c4State none).completeness
        ≠ specCompleteness c4State none := by
  have h1 : (validateCompletion "q1" c4State none).completeness = 1 := by
    norm_num [validateCompletion, checkCompleteness, c4State,
      createInitialState, min_def]
  have h2 : specCompleteness c4State none = 0 := by
    norm_num [specCompleteness, successCount, c4State, createInitialState,
      min_def]
  refine ⟨h1, h2, ?_⟩
  rw [h1, h2]
  norm_num

/-- C4 (amended): the quality validator returns
`overall = 0.30·completeness + 0.30·coverage + 0.25·reliability +
0.15·format_valid`; `completeness` is `min(successful_observations /
plan.steps, 1)` when a plan with steps is supplied, but
`min(total_observations / 2, 1)` — counting unsuccessful observations too —
when no plan is supplied; `reliability` is the successful fraction of all
observations. -/
theorem C4_quality_formula (query : String) (state : RunState)
    (plan : Option ExecPlanM) :
    (validateCompletion query state plan).overall
      = (validateCompletion query state plan).completeness * (3/10)
        + (validateCompletion query state plan).coverage * (3/10)
        + (validateCompletion query state plan).reliability * (1/4)
        + (validateCompletion query state plan).formatValid * (3/20)
    ∧ (validateCompletion query state none).completeness
        = min ((state.observations.length : ℚ) / 2) 1
    ∧ (∀ p : ExecPlanM, p.steps ≠ [] →
        (validateCompletion query state (some p)).completeness
          = min ((successCount state.observations : ℚ) / (p.steps.length : ℚ)) 1)
    ∧ (validateCompletion query state plan).reliability
        = (if state.observations.isEmpty then 0
           else (successCount state.observations : ℚ)
             / (state.observations.length : ℚ)) := by
  refine ⟨rfl, rfl, ?_, rfl⟩
  intro p hp
  simp [validateCompletion, checkCompleteness, hp]

/-! ## C5 — reflection `should_continue` override -/

/-- C5: the claim that after the objective-quality override `should_continue`
equals `(objective_quality < threshold) AND (current_step < max_steps)` is
false on the code: when the LLM-parsed `Continue` answer was `no`, the flag
stays `false` even though the objective quality is below the threshold and
steps remain. -/
theorem C5_counterexample :
    (enhancedReflect c5Reflection c5State (3/4)).shouldContinue = false
    ∧ (validateCompletion c5State.query c5State none).overall < 3/4
    ∧ c5State.currentStep < c5State.maxSteps := by
  have hq : (validateCompletion c5State.query c5State none).overall = 0 := by
    norm_num [validateCompletion, checkCompleteness, checkFunctionCoverage,
      checkReliability, checkOutputFormat, successCount, c5State,
      createInitialState, min_def]
  refine ⟨?_, ?_, ?_⟩
  · unfold enhancedReflect
    rw [hq]
    norm_num [enhancedReflectOverride, c5Reflection, c5State,
      createInitialState]
  · rw [hq]; norm_num
  · norm_num [c5State, createInitialState]

/-- C5 (amended): after the override, the reflection's quality is the
objective score, and `should_continue` equals the conjunction of the
LLM-parsed flag with `(objective_quality < threshold)` and
`(current_step < max_steps)` — the override can only force the flag to
`false`, never to `true`. -/
theorem C5_should_continue (r : AgentReflectionM) (q t : ℚ) (s m : Nat) :
    (enhancedReflectOverride r q t s m).shouldContinue
      = (r.shouldContinue && decide (q < t) && decide (s < m))
    ∧ (enhancedReflectOverride r q t s m).qualityScore = q
    ∧ (enhancedReflect r c5State t).shouldContinue
      = (r.shouldContinue
          && decide ((validateCompletion c5State.query c5State none).overall < t)
          && decide (c5State.currentStep < c5State.maxSteps)) := by
  have main : ∀ (r' : AgentReflectionM) (q' t' : ℚ) (s' m' : Nat),
      (enhancedReflectOverride r' q' t' s' m').shouldContinue
        = (r'.shouldContinue && decide (q' < t') && decide (s' < m')) := by
    intro r' q' t' s' m'
    unfold enhancedReflectOverride
    rcases le_or_lt t' q' with h | h
    · simp [h, not_lt.mpr h]
    · rcases le_or_lt m' s' with h2 | h2
      · simp [not_le.mpr h, h, h2, not_lt.mpr h2]
      · simp [not_le.mpr h, h, h2, not_le.mpr h2]
  refine ⟨main r q t s m, ?_, main r _ t _ _⟩
  unfold enhancedReflectOverride
  rcases le_or_lt t q with h | h
  · simp [h]
  · rcases le_or_lt m s with h2 | h2
    · simp [not_le.mpr h, h2]
    · simp [not_le.mpr h, not_le.mpr h2]

/-! ## C6 — empty retrieval path -/

/-- C6: the claim that the empty-retrieval final answer is synthesized by a
direct LLM call is false on the code: `_handle_no_functions` stores a fixed
canned message, does not consult the LLM collaborator (the run result is
unchanged when the collaborator changes), and the message differs from the
collaborator's output. -/
theorem C6_counterexample :
    (runEmptySelection llmA "u1" "hello" none 5).finalAnswer
      = some noFunctionsMessage
    ∧ noFunctionsMessage ≠ llmA "hello"
    ∧ runEmptySelection llmA "u1" "hello" none 5
        = runEmptySelection (fun _ => "another collaborator") "u1" "hello" none 5 := by
  refine ⟨rfl, ?_, rfl⟩
  decide

/-- C6 (amended): when the hybrid selector returns no functions, the ReAct
loop is skipped and the run terminates with `status = completed`,
`quality_score = 0`, empty thoughts/actions/observations, `current_step = 0`,
and the FIXED fallback message as final answer — independent of the LLM
collaborator (no direct LLM call is made for it). -/
theorem C6_empty_retrieval (llm llm2 : String → String) (userId query : String)
    (cid : Option String) (mi : Nat) :
    (runEmptySelection llm userId query cid mi).status = "completed"
    ∧ (runEmptySelection llm userId query cid mi).qualityScore = some 0
    ∧ (runEmptySelection llm userId query cid mi).actions = []
    ∧ (runEmptySelection llm userId query cid mi).observations = []
    ∧ (runEmptySelection llm userId query cid mi).thoughts = []
    ∧ (runEmptySelection llm userId query cid mi).currentStep = 0
    ∧ (runEmptySelection llm userId query cid mi).finalAnswer
        = some noFunctionsMessage
    ∧ runEmptySelection llm userId query cid mi
        = runEmptySelection llm2 userId query cid mi :=
  ⟨rfl, rfl, rfl, rfl, rfl, rfl, rfl, rfl⟩

/-! ## C1 — parameter validation before execution -/

/-- Helper: `_validate_parameters` succeeds exactly when every required
property is a key of the params dict. -/
theorem validateParameters_eq_required_present (params : ParamsT)
    (schema : FunctionSchemaM) :
    (validateParameters params schema).1 = true
      ↔ ∀ r ∈ schema.parameters.required, (params.lookup r).isSome := by
  have key : schema.parameters.required.find?
        (fun r => (params.lookup r).isNone) = none
      ↔ ∀ r ∈ schema.parameters.required, (params.lookup r).isSome := by
    rw [List.find?_eq_none]
    refine forall₂_congr ?_
    intro r _
    cases params.lookup r <;> simp
  constructor
  · intro h
    apply key.mp
    by_contra hne
    rcases Option.ne_none_iff_exists'.mp hne with ⟨p, hp⟩
    unfold validateParameters at h
    rw [hp] at h
    simp at h
  · intro h
    unfold validateParameters
    rw [key.mpr h]

/-- Helper: everything `synthesize` hands on passed `_validate_parameters`. -/
theorem synthesize_validates (schema : FunctionSchemaM)
    (attempts : List (SynthStrategy × Option ParamsT)) (p : ParamsT)
    (s : SynthStrategy) (h : synthesize attempts schema = some (p, s)) :
    (validateParameters p schema).1 = true := by
  induction attempts with
  | nil => simp [synthesize] at h
  | cons a rest ih =>
    obtain ⟨strat, res⟩ := a
    cases res with
    | none =>
      exact ih (by simpa [synthesize] using h)
    | some params =>
      by_cases hv : (!params.isEmpty && (validateParameters params schema).1) = true
      · rw [synthesize, if_pos hv] at h
        have h' := Option.some.inj h
        have hp : params = p := congrArg Prod.fst h'
        simp only [Bool.and_eq_true] at hv
        exact hp ▸ hv.2
      · rw [synthesize, if_neg hv] at h
        exact ih h

/-- C1: the claim is false on the code.  The synthesizer's local validation
accepts — and `synthesize` hands to the executor — a parameter set whose `x`
is a string where the schema declares `integer` with `minimum 5` and which
carries the undeclared property `junk`; the specification's validation rules
(`specLocalValidation`) reject that set. -/
theorem C1_counterexample :
    synthesize [(.template, some c1BadParams)] c1Schema
      = some (c1BadParams, .template)
    ∧ (validateParameters c1BadParams c1Schema).1 = true
    ∧ specLocalValidation c1BadParams c1Schema = false :=
  ⟨rfl, rfl, rfl⟩

/-- C1 (amended): the synthesizer's local validation checks ONLY that every
`required` property is present; it performs no type, bound, pattern, or
unknown-property check.  Accordingly every parameter set `synthesize` returns
has all required properties present (and nothing more is guaranteed). -/
theorem C1_required_presence_only (schema : FunctionSchemaM)
    (attempts : List (SynthStrategy × Option ParamsT)) (p : ParamsT)
    (s : SynthStrategy) (h : synthesize attempts schema = some (p, s)) :
    (∀ r ∈ schema.parameters.required, (p.lookup r).isSome)
    ∧ (∀ params : ParamsT, (validateParameters params schema).1 = true
        ↔ ∀ r ∈ schema.parameters.required, (params.lookup r).isSome) := by
  refine ⟨?_, fun params => validateParameters_eq_required_present params schema⟩
  exact (validateParameters_eq_required_present p schema).mp
    (synthesize_validates schema attempts p s h)

/-- Witness for `C1_required_presence_only` at a concrete synthesis run. -/
theorem C1_required_presence_only_witness :
    (∀ r ∈ c1Schema.parameters.required, (c1GoodParams.lookup r).isSome)
    ∧ (∀ params : ParamsT, (validateParameters params c1Schema).1 = true
        ↔ ∀ r ∈ c1Schema.parameters.required, (params.lookup r).isSome) :=
  C1_required_presence_only c1Schema [(.template, some c1GoodParams)]
    c1GoodParams .template rfl

/-! ## C2 — sync-event logging and transactions -/

/-- C2: the claim is false on the code.  For a successful create of `"F1"`,
the SyncEvent is committed in a SEPARATE transaction after the entity insert
(no transaction of the trace contains both writes); and when event logging
fails, the create still reports success with the entity mutated and no event
written — the failure is swallowed. -/
theorem C2_counterexample :
    ¬ specSameTxnEvent (createFunctionTxns "F1" true).1 "F1" .insert
    ∧ createFunctionTxns "F1" false = ([⟨[.insertFunctionRow "F1"]⟩], true) := by
  constructor
  · simp [specSameTxnEvent, createFunctionTxns, logEventTxns, isEntityWrite]
  · rfl

/-- C2 (amended): each successful create/update/delete commits the entity
mutation in its own transaction first, then attempts to commit the SyncEvent
in a second, separate transaction; no transaction contains both writes, and a
failure of event logging is swallowed — the mutation stands, the call reports
success, and no event exists. -/
theorem C2_separate_transactions (fid : String) (logOk : Bool) :
    ((createFunctionTxns fid logOk).2 = true
      ∧ (updateFunctionTxns fid logOk).2 = true
      ∧ (deleteFunctionTxns fid logOk).2 = true)
    ∧ ¬ specSameTxnEvent (createFunctionTxns fid logOk).1 fid .insert
    ∧ ¬ specSameTxnEvent (updateFunctionTxns fid logOk).1 fid .update
    ∧ ¬ specSameTxnEvent (deleteFunctionTxns fid logOk).1 fid .delete
    ∧ (logOk = true → (createFunctionTxns fid logOk).1
        = [⟨[.insertFunctionRow fid]⟩, ⟨[.insertSyncEventRow fid .insert]⟩])
    ∧ (logOk = false → (createFunctionTxns fid logOk).1
        = [⟨[.insertFunctionRow fid]⟩]) := by
  cases logOk <;>
    simp [createFunctionTxns, updateFunctionTxns, deleteFunctionTxns,
      logEventTxns, specSameTxnEvent, isEntityWrite]

/-! ## C3 and C10 — HTTP retry pipeline -/

/-- Helper: the tenacity loop performs at most `fuel` attempts. -/
theorem execHttpAux_attempts_le (att : Nat → HttpAttempt) :
    ∀ fuel i, (execHttpAux att i fuel).2 ≤ fuel := by
  intro fuel
  induction fuel with
  | zero => intro i; simp [execHttpAux]
  | succ f ih =>
    intro i
    rw [execHttpAux]
    cases hA : attemptOnce (att i) with
    | ok v => simp
    | error e =>
      by_cases hr : tenacityRetryable e
      · by_cases hf : f = 0
        · simp [hr, hf]
        · have := ih (i + 1)
          simp only [hr, if_true, hf, if_false, if_pos, if_neg]
          simp [hr, hf]
          omega
      · simp [hr]

/-- Helper: an attempt is followed by another only when it failed with a
timeout or a transport error. -/
theorem execHttpAux_retries_only (att : Nat → HttpAttempt) :
    ∀ fuel i k, k + 1 < (execHttpAux att i fuel).2 →
      att (i + k) = .timeout ∨ att (i + k) = .networkError := by
  intro fuel
  induction fuel with
  | zero => intro i k h; simp [execHttpAux] at h
  | succ f ih =>
    intro i k h
    rw [execHttpAux] at h
    cases hA : attemptOnce (att i) with
    | ok v => rw [hA] at h; simp at h
    | error e =>
      rw [hA] at h
      by_cases hr : tenacityRetryable e
      · by_cases hf : f = 0
        · simp [hr, hf] at h
        · simp [hr, hf] at h
          cases k with
          | zero =>
            rw [Nat.add_zero]
            cases hAtt : att i with
            | timeout => exact Or.inl rfl
            | networkError => exact Or.inr rfl
            | response s body =>
              rw [hAtt] at hA
              by_cases hs : 400 ≤ s
              · simp [attemptOnce, hs] at hA
                subst hA
                simp [tenacityRetryable] at hr
              · simp [attemptOnce, hs] at hA
          | succ j =>
            have hj : j + 1 < (execHttpAux att (i + 1) f).2 := by omega
            have hres := ih (i + 1) j hj
            have harith : i + 1 + j = i + (j + 1) := by omega
            rwa [harith] at hres
      · simp [hr] at h

/-- Helper: a non-retryable exception on the current attempt terminates the
loop at once. -/
theorem execHttpAux_nonretryable (att : Nat → HttpAttempt) (i fuel : Nat)
    (e : ReqError) (hA : attemptOnce (att i) = .error e)
    (hr : tenacityRetryable e = false) :
    execHttpAux att i (fuel + 1) = (.error e, 1) := by
  rw [execHttpAux, hA]
  simp [hr]

/-- Helper: an HTTP status ≥ 400 on the first attempt terminates `execHttp`
with `HTTPStatusError` after exactly one attempt. -/
theorem execHttp_status_terminal (att : Nat → HttpAttempt) (s : Nat)
    (body : String) (h0 : att 0 = .response s body) (hs : 400 ≤ s) :
    execHttp att = (.error (.httpStatusExc s), 1) := by
  have hA : attemptOnce (att 0) = .error (.httpStatusExc s) := by
    rw [h0]; simp [attemptOnce, hs]
  exact execHttpAux_nonretryable att 0 2 _ hA rfl

/-- Helper: the retry executor returns at once when the inner call returns. -/
theorem executeWithRetryAux_ok_head (call : Nat → Except String ExecFnResult)
    (maxR attempt fuel : Nat) (last : Option String) (r : ExecFnResult)
    (h : call attempt = .ok r) :
    executeWithRetryAux call maxR attempt (fuel + 1) last
      = { success := true, data := some r, attempts := attempt + 1,
          error := none, errorType := none, retrySuggested := none } := by
  rw [executeWithRetryAux, h]

/-- C3: HTTP retries happen only on timeout or transport errors, at most 3
attempts are made, the backoff delays are the clamped exponential
`max 2 (min 2^(n-1) 10)` seconds (nondecreasing, capped), and a status ≥ 400
on the first attempt is terminal: `execute_function` returns a failure dict
with `error_type = HTTPStatusError` after exactly one HTTP attempt, and the
retry layer records `attempts = 1` with no further attempt. -/
theorem C3_http_retry_policy (att : Nat → HttpAttempt) (fid : String) :
    (execHttp att).2 ≤ 3
    ∧ (∀ k, k + 1 < (execHttp att).2 →
        att k = .timeout ∨ att k = .networkError)
    ∧ (∀ s body, att 0 = .response s body → 400 ≤ s →
        executeFunction fid att
          = ({ functionId := fid, success := false, data := none,
               cached := false, error := some "HTTPStatusError",
               errorType := some "HTTPStatusError", statusCode := none }, 1)
        ∧ observeExecute 2 fid att
          = { success := true, data := some (executeFunction fid att).1,
              attempts := 1, error := none, errorType := none,
              retrySuggested := none })
    ∧ (∀ n, 2 ≤ tenacityWaitSeconds n ∧ tenacityWaitSeconds n ≤ 10)
    ∧ (∀ n m, n ≤ m → tenacityWaitSeconds n ≤ tenacityWaitSeconds m) := by
  refine ⟨execHttpAux_attempts_le att 3 0, ?_, ?_, ?_, ?_⟩
  · intro k h
    simpa using execHttpAux_retries_only att 3 0 k h
  · intro s body h0 hs
    have hexec : execHttp att = (.error (.httpStatusExc s), 1) :=
      execHttp_status_terminal att s body h0 hs
    have hfn : executeFunction fid att
        = ({ functionId := fid, success := false, data := none,
             cached := false, error := some "HTTPStatusError",
             errorType := some "HTTPStatusError", statusCode := none }, 1) := by
      unfold executeFunction
      rw [hexec]
      rfl
    refine ⟨hfn, ?_⟩
    unfold observeExecute executeWithRetry
    exact executeWithRetryAux_ok_head _ 2 0 1 none _ rfl
  · intro n
    unfold tenacityWaitSeconds
    constructor
    · have : max (0 : ℚ) 2 = 2 := by norm_num
      rw [this]
      exact le_max_left _ _
    · have : max (0 : ℚ) 2 = 2 := by norm_num
      rw [this]
      exact max_le (by norm_num) (min_le_right _ _)
  · intro n m hnm
    unfold tenacityWaitSeconds
    refine max_le_max le_rfl (min_le_min ?_ le_rfl)
    exact pow_le_pow_right (by norm_num) (Nat.sub_le_sub_right hnm 1)

/-- Helper: the retry loop returns the first returned inner result when all
earlier attempts raised retryable exceptions. -/
theorem executeWithRetryAux_first_ok (call : Nat → Except String ExecFnResult)
    (maxR : Nat) (r : ExecFnResult) :
    ∀ j attempt fuel last, j < fuel → call (attempt + j) = .ok r →
      (∀ k, k < j → ∃ e, call (attempt + k) = .error e ∧ shouldRetryName e = true) →
      executeWithRetryAux call maxR attempt fuel last
        = { success := true, data := some r, attempts := attempt + j + 1,
            error := none, errorType := none, retrySuggested := none } := by
  intro j
  induction j with
  | zero =>
    intro attempt fuel last hj hok _
    cases fuel with
    | zero => omega
    | succ f =>
      rw [Nat.add_zero] at hok
      simpa using executeWithRetryAux_ok_head call maxR attempt f last r hok
  | succ j ih =>
    intro attempt fuel last hj hok hprev
    cases fuel with
    | zero => omega
    | succ f =>
      obtain ⟨e, he, hre⟩ := hprev 0 (Nat.succ_pos j)
      rw [Nat.add_zero] at he
      have hstep : executeWithRetryAux call maxR attempt (f + 1) last
          = executeWithRetryAux call maxR (attempt + 1) f (some e) := by
        rw [executeWithRetryAux, he]
        simp [hre]
      rw [hstep]
      have hok' : call (attempt + 1 + j) = .ok r := by
        have : attempt + 1 + j = attempt + (j + 1) := by omega
        rwa [this]
      have hprev' : ∀ k, k < j →
          ∃ e, call (attempt + 1 + k) = .error e ∧ shouldRetryName e = true := by
        intro k hk
        have : attempt + 1 + k = attempt + (k + 1) := by omega
        rw [this]
        exact hprev (k + 1) (by omega)
      have := ih (attempt + 1) f (some e) (by omega) hok' hprev'
      have harith : attempt + 1 + j + 1 = attempt + (j + 1) + 1 := by omega
      rwa [harith] at this

/-- Helper: the retry wrapper always returns one of the two dict shapes. -/
theorem executeWithRetryAux_shape (call : Nat → Except String ExecFnResult)
    (maxR : Nat) :
    ∀ fuel attempt last,
      ((executeWithRetryAux call maxR attempt fuel last).success = true
        ∧ ((executeWithRetryAux call maxR attempt fuel last).data).isSome = true)
      ∨ ((executeWithRetryAux call maxR attempt fuel last).success = false
        ∧ (executeWithRetryAux call maxR attempt fuel last).data = none
        ∧ ((executeWithRetryAux call maxR attempt fuel last).error).isSome = true) := by
  intro fuel
  induction fuel with
  | zero =>
    intro attempt last
    right
    simp [executeWithRetryAux, retryFailureResult]
  | succ f ih =>
    intro attempt last
    rw [executeWithRetryAux]
    cases hc : call attempt with
    | ok r => left; simp
    | error e =>
      by_cases hr : shouldRetryName e
      · simpa [hr] using ih (attempt + 1) (some e)
      · right; simp [hr, retryFailureResult]

/-- C10: the retry wrapper never raises (it always returns one of its two dict
shapes), and whenever the inner `execute_function` returns without raising —
after any run of retryable exceptions — the wrapper reports `success = True`
with the inner result under `data`, even when that inner result itself carries
`success = False`; in particular an HTTP ≥ 400 response is observed as a
successful attempt with `attempts = 1` at the retry layer. -/
theorem C10_wrapper_success (maxRetries : Nat)
    (call : Nat → Except String ExecFnResult) :
    (∀ j r, j < maxRetries → call j = .ok r →
      (∀ k, k < j → ∃ e, call k = .error e ∧ shouldRetryName e = true) →
      executeWithRetry maxRetries call
        = { success := true, data := some r, attempts := j + 1,
            error := none, errorType := none, retrySuggested := none })
    ∧ ((executeWithRetry maxRetries call).success = true
        ∧ ((executeWithRetry maxRetries call).data).isSome = true
      ∨ ((executeWithRetry maxRetries call).success = false
        ∧ (executeWithRetry maxRetries call).data = none
        ∧ ((executeWithRetry maxRetries call).error).isSome = true))
    ∧ (∀ fid att s body, att 0 = .response s body → 400 ≤ s →
        (observeExecute 2 fid att).success = true
        ∧ (observeExecute 2 fid att).data = some (executeFunction fid att).1
        ∧ (observeExecute 2 fid att).attempts = 1
        ∧ (executeFunction fid att).1.success = false) := by
  refine ⟨?_, executeWithRetryAux_shape call maxRetries maxRetries 0 none, ?_⟩
  · intro j r hj hok hprev
    have := executeWithRetryAux_first_ok call maxRetries r j 0 maxRetries none
      hj (by simpa using hok) (by simpa using hprev)
    simpa using this
  · intro fid att s body h0 hs
    have hobs : observeExecute 2 fid att
        = { success := true, data := some (executeFunction fid att).1,
            attempts := 1, error := none, errorType := none,
            retrySuggested := none } := by
      unfold observeExecute executeWithRetry
      exact executeWithRetryAux_ok_head _ 2 0 1 none _ rfl
    have hfail : (executeFunction fid att).1.success = false := by
      have hexec : execHttp att = (.error (.httpStatusExc s), 1) :=
        execHttp_status_terminal att s body h0 hs
      unfold executeFunction
      rw [hexec]
    exact ⟨by rw [hobs], by rw [hobs], by rw [hobs], hfail⟩

/-! ## C7 — sync event lifecycle and claiming -/

/-- Helper: members of a claimed batch pass the claim filter. -/
theorem mem_getPendingEvents_claimable (events : List SyncEventM) (limit : Nat)
    (x : SyncEventM) (hx : x ∈ getPendingEvents events limit) :
    claimable x = true := by
  unfold getPendingEvents at hx
  have hx1 := List.mem_of_mem_take hx
  have hx2 := (List.perm_insertionSort createdLe (events.filter claimable)).mem_iff.mp hx1
  exact (List.mem_filter.mp hx2).2

/-- C7: on success an event becomes `synced` with `synced_at` stamped and
`error_message` cleared; on a raised error it becomes `failed` with the
message truncated to 1000 characters and `retry_count` incremented by exactly
one.  A worker batch contains only events that are `pending` or `failed` with
retries left, is ordered by `created_at` ascending, holds at most the batch
size, and never contains a `synced` event. -/
theorem C7_event_lifecycle (e : SyncEventM) (msg : String) (t1 t2 : Nat)
    (events : List SyncEventM) (limit : Nat) :
    processEvent e (Except.ok ()) t1 t2
      = ({ e with
            syncStatus := .synced
            processedAt := some t1
            syncedAt := some t2
            errorMessage := none }, true)
    ∧ processEvent e (Except.error msg) t1 t2
      = ({ e with
            syncStatus := .failed
            processedAt := some t1
            errorMessage := some (msg.take 1000)
            retryCount := e.retryCount + 1 }, false)
    ∧ (∀ x ∈ getPendingEvents events limit,
        x.syncStatus = .pending
        ∨ (x.syncStatus = .failed ∧ x.retryCount < x.maxRetries))
    ∧ (getPendingEvents events limit).length ≤ limit
    ∧ (getPendingEvents events limit).Sorted createdLe
    ∧ (∀ x ∈ getPendingEvents events limit, x.syncStatus ≠ .synced) := by
  refine ⟨rfl, rfl, ?_, ?_, ?_, ?_⟩
  · intro x hx
    have hcl := mem_getPendingEvents_claimable events limit x hx
    simpa [claimable] using hcl
  · exact List.length_take_le limit _
  · exact List.Pairwise.sublist (List.take_sublist _ _)
      (List.sorted_insertionSort createdLe (events.filter claimable))
  · intro x hx
    have hcl := mem_getPendingEvents_claimable events limit x hx
    intro hsync
    simp [claimable, hsync] at hcl

/-! ## C8 — loop state invariants -/

/-- Helper: one iteration preserves the size invariants and keeps the step
within the budget when it was strictly below it before. -/
theorem stepIter_invariant (s : RunState) (ev : IterOut)
    (h1 : s.actions.length ≤ s.observations.length)
    (h2 : s.observations.length ≤ s.thoughts.length)
    (h3 : s.currentStep < s.maxSteps) :
    (stepIter s ev).actions.length ≤ (stepIter s ev).observations.length
    ∧ (stepIter s ev).observations.length ≤ (stepIter s ev).thoughts.length
    ∧ (stepIter s ev).currentStep ≤ (stepIter s ev).maxSteps := by
  unfold stepIter
  cases ev.actObs with
  | none => simp; omega
  | some x =>
    obtain ⟨a, o, n⟩ := x
    simp
    omega

/-- Helper: the loop preserves the invariants from any starting state. -/
theorem runLoop_invariant (evs : List IterOut) :
    ∀ s : RunState,
      s.actions.length ≤ s.observations.length →
      s.observations.length ≤ s.thoughts.length →
      s.currentStep ≤ s.maxSteps →
      (runLoop s evs).actions.length ≤ (runLoop s evs).observations.length
      ∧ (runLoop s evs).observations.length ≤ (runLoop s evs).thoughts.length
      ∧ (runLoop s evs).currentStep ≤ (runLoop s evs).maxSteps := by
  induction evs with
  | nil => intro s h1 h2 h3; exact ⟨h1, h2, h3⟩
  | cons ev rest ih =>
    intro s h1 h2 h3
    rw [runLoop]
    by_cases hlt : s.currentStep < s.maxSteps
    · rw [if_pos hlt]
      have hstep := stepIter_invariant s ev h1 h2 hlt
      by_cases hc : ev.reflection.shouldContinue
      · rw [if_pos hc]
        exact ih (stepIter s ev) hstep.1 hstep.2.1 hstep.2.2
      · rw [if_neg hc]
        exact hstep
    · rw [if_neg hlt]
      exact ⟨h1, h2, h3⟩

/-- C8: every state reached by a prefix of a controller run — including the
finalized state — satisfies `|actions| ≤ |observations| ≤ |thoughts|` and
`current_step ≤ max_steps`. -/
theorem C8_state_invariants (userId query : String) (cid : Option String)
    (mi : Nat) (evs : List IterOut) (answer : String) (threshold : ℚ) :
    ((runLoop (createInitialState userId query cid mi) evs).actions.length
      ≤ (runLoop (createInitialState userId query cid mi) evs).observations.length)
    ∧ ((runLoop (createInitialState userId query cid mi) evs).observations.length
      ≤ (runLoop (createInitialState userId query cid mi) evs).thoughts.length)
    ∧ ((runLoop (createInitialState userId query cid mi) evs).currentStep
      ≤ (runLoop (createInitialState userId query cid mi) evs).maxSteps)
    ∧ ((finalizeRun (runLoop (createInitialState userId query cid mi) evs)
          answer threshold).actions.length
      ≤ (finalizeRun (runLoop (createInitialState userId query cid mi) evs)
          answer threshold).observations.length)
    ∧ ((finalizeRun (runLoop (createInitialState userId query cid mi) evs)
          answer threshold).observations.length
      ≤ (finalizeRun (runLoop (createInitialState userId query cid mi) evs)
          answer threshold).thoughts.length)
    ∧ ((finalizeRun (runLoop (createInitialState userId query cid mi) evs)
          answer threshold).currentStep
      ≤ (finalizeRun (runLoop (createInitialState userId query cid mi) evs)
          answer threshold).maxSteps) := by
  have base := runLoop_invariant evs (createInitialState userId query cid mi)
    (by simp [createInitialState]) (by simp [createInitialState])
    (by simp [createInitialState])
  exact ⟨base.1, base.2.1, base.2.2, base.1, base.2.1, base.2.2⟩

/-! ## C9 — replaying sync events against the vector index -/

/-- C9: the claim is false on the code.  Processing the INSERT event `c9Event`
twice appends two rows for `F1` (the store inserts with an auto id instead of
upserting), so the index state differs from a single application and holds
two entries for the entity. -/
theorem C9_counterexample :
    applyTwice (processInsertVec c9Event) vEmpty ≠ processInsertVec c9Event vEmpty
    ∧ processInsertVec c9Event vEmpty = .ok (indexFunction vEmpty c9Payload)
    ∧ applyTwice (processInsertVec c9Event) vEmpty
        = .ok (indexFunction (indexFunction vEmpty c9Payload) c9Payload)
    ∧ countFunctionId (indexFunction vEmpty c9Payload) "F1" = 1
    ∧ countFunctionId (indexFunction (indexFunction vEmpty c9Payload) c9Payload) "F1" = 2
    ∧ vContents (indexFunction (indexFunction vEmpty c9Payload) c9Payload)
        ≠ vContents (indexFunction vEmpty c9Payload) := by
  have honce : processInsertVec c9Event vEmpty
      = .ok (indexFunction vEmpty c9Payload) := rfl
  have htwice : applyTwice (processInsertVec c9Event) vEmpty
      = .ok (indexFunction (indexFunction vEmpty c9Payload) c9Payload) := rfl
  refine ⟨?_, honce, htwice, rfl, rfl, by decide⟩
  rw [honce, htwice]
  intro hcontra
  exact absurd (Except.ok.inj hcontra) (by decide)

/-- C9 (amended): replaying a DELETE event is idempotent on the store state;
replaying an UPDATE event (whose snapshot id matches the entity id) leaves the
observable index contents unchanged; but replaying an INSERT event adds one
more vector entry for the entity id with each application. -/
theorem C9_replay_semantics (e : SyncEventM) (st : VStore) (d : VPayload)
    (h1 : e.newData = some d) (h2 : e.entityType = "function")
    (h3 : d.funcId = e.entityId) :
    applyTwice (processDeleteVec e) st = processDeleteVec e st
    ∧ (∃ s1 s2, processUpdateVec e st = .ok s1
        ∧ applyTwice (processUpdateVec e) st = .ok s2
        ∧ vContents s2 = vContents s1)
    ∧ (∃ s1 s2, processInsertVec e st = .ok s1
        ∧ applyTwice (processInsertVec e) st = .ok s2
        ∧ countFunctionId s2 d.funcId = countFunctionId s1 d.funcId + 1) := by
  refine ⟨?_, ?_, ?_⟩
  · simp only [applyTwice, processDeleteVec, h2]
    simp [deleteByFunctionId, List.filter_filter]
  · refine ⟨indexFunction (deleteByFunctionId st e.entityId) d,
      indexFunction (deleteByFunctionId
        (indexFunction (deleteByFunctionId st e.entityId) d) e.entityId) d,
      ?_, ?_, ?_⟩
    · simp [processUpdateVec, h2, h1]
    · simp [applyTwice, processUpdateVec, h2, h1]
    · simp [vContents, indexFunction, deleteByFunctionId, List.filter_append,
        List.filter_filter, h3]
  · refine ⟨indexFunction st d, indexFunction (indexFunction st d) d, ?_, ?_, ?_⟩
    · simp [processInsertVec, h2, h1]
    · simp [applyTwice, processInsertVec, h2, h1]
    · simp [countFunctionId, indexFunction, List.filter_append]

/-- Witness for `C9_replay_semantics` at the concrete event `c9Event` on the
empty store. -/
theorem C9_replay_semantics_witness :
    applyTwice (processDeleteVec c9Event) vEmpty = processDeleteVec c9Event vEmpty
    ∧ (∃ s1 s2, processUpdateVec c9Event vEmpty = .ok s1
        ∧ applyTwice (processUpdateVec c9Event) vEmpty = .ok s2
        ∧ vContents s2 = vContents s1)
    ∧ (∃ s1 s2, processInsertVec c9Event vEmpty = .ok s1
        ∧ applyTwice (processInsertVec c9Event) vEmpty = .ok s2
        ∧ countFunctionId s2 c9Payload.funcId
            = countFunctionId s1 c9Payload.funcId + 1) :=
  C9_replay_semantics c9Event vEmpty c9Payload rfl rfl rfl

end Ioc
